import Mathlib

/-!
Shallow embedding of the ytstream service: the Flask app (`app.py`) and the
stream-session orchestrator (`youtube_streamer.py`).

External effects (the remote YouTube Data API calls, credential parsing, and
the relay-process spawn) are modelled by an oracle record `Remote`: each field
gives the outcome the environment would return for the corresponding remote
call, since each such call is made at most once per request.  Every remote
invocation the code performs is recorded in an emitted trace of `RemoteCall`
events, so theorems can speak about which calls were made, with which
arguments, and in which order.
-/

namespace YTStream

/-- Body the code sends on `liveBroadcasts().insert` (`youtube_streamer.py`,
`create_broadcast`): snippet title/description plus the status and
contentDetails flags. -/
structure BroadcastBody where
  title : String
  description : String
  privacyStatus : String
  selfDeclaredMadeForKids : Bool
  enableAutoStart : Bool
  enableAutoStop : Bool
  enableDvr : Bool
  enableContentEncryption : Bool
  enableEmbed : Bool
  recordFromStart : Bool
  startWithSlate : Bool
deriving DecidableEq

/-- One remote invocation performed by the code: a YouTube Data API call or
the relay (ffmpeg) process spawn. -/
inductive RemoteCall
  | insertBroadcast (body : BroadcastBody)
  | transition (broadcastStatus : String) (id : String)
  | insertStream
  | bind (id : String) (streamId : String)
  | listStreams (id : String)
  | deleteBroadcast (id : String)
  | deleteStream (id : String)
  | spawnFfmpeg (videoPath : String) (streamUrl : String)
deriving DecidableEq

/-- Oracle for the environment: the outcome of each external effect, were the
code to perform it.  `error msg` models the Python call raising an exception
whose `str` is `msg`.

The field `spawnFfmpeg` is the outcome of `self.start_ffmpeg(...)`.
Modelled from the spec: `start_ffmpeg` (RelayProcess.Start, spec section 4.3)
is code of the repository that is not under `src/` — only its caller is — so
its launch is modelled as an external effect that either succeeds, returning
a process handle, or fails by raising. -/
structure Remote where
  buildService : Except String Unit
  parseCredentials : Except String Unit
  insertBroadcast : Except String String
  transitionTesting : Except String Unit
  transitionLive : Except String Unit
  insertStream : Except String String
  bind : Except String Unit
  listStreams : Except String (List String)
  deleteBroadcast : Except String Unit
  deleteStream : Except String Unit
  spawnFfmpeg : Except String Unit

/-- The exception hierarchy of `youtube_streamer.py`: `AuthenticationError`,
`BroadcastError`, `StreamError`, `FFmpegError`, and the base
`YouTubeStreamError`, each carrying its message. -/
inductive StreamErr
  | authenticationError (msg : String)
  | broadcastError (msg : String)
  | streamError (msg : String)
  | ffmpegError (msg : String)
  | baseError (msg : String)
deriving DecidableEq

/-- Dict returned by `YouTubeStreamer.start_stream` on success. -/
structure StreamResult where
  success : Bool
  broadcast_url : String
  stream_url : String
deriving DecidableEq

/-- `os.path.basename` for the paths this code builds: the characters after
the last `/` (the whole path when it has none).  Computed on the character
list so that it reduces definitionally. -/
def basename (p : String) : String :=
  ⟨(p.data.reverse.takeWhile (fun c => c ≠ '/')).reverse⟩

/-- The broadcast-insert body built in `create_broadcast`: `privacyStatus`
public, `enableAutoStart` and `enableDvr` true, and the other fixed flags. -/
def broadcast_body (title description : String) : BroadcastBody :=
  { title := title
    description := description
    privacyStatus := "public"
    selfDeclaredMadeForKids := false
    enableAutoStart := true
    enableAutoStop := false
    enableDvr := true
    enableContentEncryption := true
    enableEmbed := true
    recordFromStart := true
    startWithSlate := false }

/-- `YouTubeStreamer.create_broadcast`: insert the broadcast, then transition
it to `testing`, then to `live`, returning the inserted broadcast's id.  A
failure of any of the three calls propagates (re-raised by the method's
`except`).  Returns the emitted call trace with the result. -/
def create_broadcast (r : Remote) (title description : String) :
    List RemoteCall × Except String String :=
  let body := broadcast_body title description
  match r.insertBroadcast with
  | .error e => ([.insertBroadcast body], .error e)
  | .ok bid =>
    match r.transitionTesting with
    | .error e => ([.insertBroadcast body, .transition "testing" bid], .error e)
    | .ok _ =>
      match r.transitionLive with
      | .error e =>
          ([.insertBroadcast body, .transition "testing" bid,
            .transition "live" bid], .error e)
      | .ok _ =>
          ([.insertBroadcast body, .transition "testing" bid,
            .transition "live" bid], .ok bid)

/-- `YouTubeStreamer.create_stream`: insert the live stream (fixed cdn body),
returning its id; failure propagates. -/
def create_stream (r : Remote) : List RemoteCall × Except String String :=
  match r.insertStream with
  | .error e => ([.insertStream], .error e)
  | .ok sid => ([.insertStream], .ok sid)

/-- `YouTubeStreamer.get_stream_url`: list the stream by id and read
`items[0].cdn.ingestionInfo.ingestionAddress`; an empty `items` raises
(Python `IndexError`). -/
def get_stream_url (r : Remote) (stream_id : String) :
    List RemoteCall × Except String String :=
  match r.listStreams with
  | .error e => ([.listStreams stream_id], .error e)
  | .ok [] => ([.listStreams stream_id], .error "list index out of range")
  | .ok (addr :: _) => ([.listStreams stream_id], .ok addr)

/-- The body of the stream-setup `try` block in `YouTubeStreamer.start_stream`
(create stream, bind it to the broadcast, get the ingest URL); the first
failure aborts the block and is reported to the surrounding `except`. -/
def setup_stream_block (r : Remote) (broadcast_id : String) :
    List RemoteCall × Except String (String × String) :=
  match create_stream r with
  | (t, .error e) => (t, .error e)
  | (t, .ok stream_id) =>
    match r.bind with
    | .error e => (t ++ [.bind broadcast_id stream_id], .error e)
    | .ok _ =>
      match get_stream_url r stream_id with
      | (t2, .error e) => (t ++ [.bind broadcast_id stream_id] ++ t2, .error e)
      | (t2, .ok url) =>
          (t ++ [.bind broadcast_id stream_id] ++ t2, .ok (stream_id, url))

/-- `YouTubeStreamer.start_stream` (the orchestrator).  `fileExists` models
`os.path.exists(video_path)`.  Mirrors the code: missing file raises
`StreamError`; a `build` failure raises `AuthenticationError`; a
`create_broadcast` failure raises `BroadcastError`; a failure in the
stream-setup block deletes the broadcast (best effort, its own failure
swallowed) and raises `StreamError`; a relay-spawn failure deletes the
broadcast and the stream (best effort, in one `try`, so a failing broadcast
delete skips the stream delete) and raises `FFmpegError`; success returns the
result dict with the watch URL of the created broadcast. -/
def streamer_start_stream (r : Remote) (fileExists : Bool)
    (video_path title : String) :
    List RemoteCall × Except StreamErr StreamResult :=
  if ¬ fileExists then
    ([], .error (.streamError ("Video file not found: " ++ video_path)))
  else
    match r.buildService with
    | .error e =>
        ([], .error (.authenticationError
          ("Failed to create YouTube service: " ++ e)))
    | .ok _ =>
      match create_broadcast r title ("Stream of " ++ basename video_path) with
      | (t1, .error e) =>
          (t1, .error (.broadcastError ("Failed to create broadcast: " ++ e)))
      | (t1, .ok broadcast_id) =>
        match setup_stream_block r broadcast_id with
        | (t2, .error e) =>
            (t1 ++ t2 ++ [.deleteBroadcast broadcast_id],
             .error (.streamError ("Failed to setup stream: " ++ e)))
        | (t2, .ok (stream_id, stream_url)) =>
          match r.spawnFfmpeg with
          | .ok _ =>
              (t1 ++ t2 ++ [.spawnFfmpeg video_path stream_url],
               .ok { success := true
                     broadcast_url :=
                       "https://youtube.com/watch?v=" ++ broadcast_id
                     stream_url := stream_url })
          | .error e =>
              (t1 ++ t2 ++ [.spawnFfmpeg video_path stream_url] ++
                 (match r.deleteBroadcast with
                  | .error _ => [.deleteBroadcast broadcast_id]
                  | .ok _ => [.deleteBroadcast broadcast_id,
                              .deleteStream stream_id]),
               .error (.ffmpegError ("Failed to start FFmpeg: " ++ e)))

/-- Channel dict built by `YouTubeStreamer.get_channel_info` from the first
item of the channels listing. -/
structure ChannelInfo where
  id : String
  title : String
  thumbnail : String
deriving DecidableEq

/-- JSON-ish value appearing in a response body: string, boolean, or the
channel-info object. -/
inductive JVal
  | s (v : String)
  | b (v : Bool)
  | channel (c : ChannelInfo)
deriving DecidableEq

/-- Response body: the JSON object as an ordered key/value list. -/
abbrev Body := List (String × JVal)

/-- HTTP response: status code and JSON body. -/
structure Response where
  status : Nat
  body : Body
deriving DecidableEq

/-- Flask session state relevant to these routes: the stored
`youtube_credentials` JSON, if any. -/
structure Session where
  youtube_credentials : Option String
deriving DecidableEq

/-- The parts of a `POST /start-stream` request the handler inspects:
whether a `video` part is present in `request.files`, its filename, and the
`title` form field (`none` when the field is absent; `some ""` when present
but empty). -/
structure StartRequest where
  hasVideoField : Bool
  filename : String
  titleField : Option String
deriving DecidableEq

/-- Outcome of one `POST /start-stream` call: the HTTP response, the trace of
remote calls made, whether the upload was staged to disk (`file.save` ran),
and whether the staged file still exists when the call resolves. -/
structure CallOutcome where
  response : Response
  calls : List RemoteCall
  staged : Bool
  fileAfter : Bool
deriving DecidableEq

/-- `ALLOWED_EXTENSIONS` from `app.py`. -/
def ALLOWED_EXTENSIONS : List String := ["mp4", "avi", "mkv", "mov"]

/-- The piece of the filename after its last dot, lowercased:
`filename.rsplit('.', 1)[1].lower()`.  Computed on the character list (the
characters after the last `'.'` are those whose reversed prefix holds no
`'.'`), so that it reduces definitionally. -/
def lowerExt (filename : String) : String :=
  ⟨((filename.data.reverse.takeWhile (fun c => c ≠ '.')).reverse).map
    Char.toLower⟩

/-- `allowed_file` from `app.py`: the filename contains a dot and the piece
after the last dot, lowercased, is an allowed extension. -/
def allowed_file (filename : String) : Bool :=
  filename.data.contains '.' && ALLOWED_EXTENSIONS.contains (lowerExt filename)

/-- Mapping from a `YouTubeStreamer.start_stream` exception to the response
the `except` clauses of the `/start-stream` handler build: 401 `auth_error`
for `AuthenticationError`; 500 with `broadcast_error`, `stream_error`,
`ffmpeg_error` for the typed errors; 500 `unknown_error` for anything else
(the base class falls through to the generic `except Exception`). -/
def error_response : StreamErr → Response
  | .authenticationError m =>
      { status := 401
        body := [("success", .b false), ("message", .s m),
                 ("error_type", .s "auth_error")] }
  | .broadcastError m =>
      { status := 500
        body := [("success", .b false), ("message", .s m),
                 ("error_type", .s "broadcast_error")] }
  | .streamError m =>
      { status := 500
        body := [("success", .b false), ("message", .s m),
                 ("error_type", .s "stream_error")] }
  | .ffmpegError m =>
      { status := 500
        body := [("success", .b false), ("message", .s m),
                 ("error_type", .s "ffmpeg_error")] }
  | .baseError m =>
      { status := 500
        body := [("success", .b false),
                 ("message", .s ("Failed to start stream: " ++ m)),
                 ("error_type", .s "unknown_error")] }

/-- The `/start-stream` view function of `app.py` (body of `start_stream`),
reached only when `check_session` let the request through.  The staged file
path is `temp_uploads/<filename>` (werkzeug's `secure_filename` sanitization
is an external library call, not modelled; the same `filepath` variable is
used for `file.save` and for the `finally` cleanup, so staging and removal
always target the same file).  The `finally` block removes the staged file on
every path out of the inner `try`, so `fileAfter` is false whenever `staged`
is true. -/
def start_stream_view (req : StartRequest) (r : Remote) : CallOutcome :=
  if ¬ req.hasVideoField then
    { response :=
        { status := 400
          body := [("success", .b false),
                   ("message", .s "No video file provided"),
                   ("error_type", .s "validation_error")] }
      calls := [], staged := false, fileAfter := false }
  else
    let title := req.titleField.getD "Untitled Stream"
    if req.filename = "" then
      { response :=
          { status := 400
            body := [("success", .b false),
                     ("message", .s "No selected file"),
                     ("error_type", .s "validation_error")] }
        calls := [], staged := false, fileAfter := false }
    else if ¬ allowed_file req.filename then
      { response :=
          { status := 400
            body := [("success", .b false),
                     ("message",
                      .s "Invalid file type. Allowed types: mp4, avi, mkv, mov"),
                     ("error_type", .s "validation_error")] }
        calls := [], staged := false, fileAfter := false }
    else
      let filepath := "temp_uploads/" ++ req.filename
      match r.parseCredentials with
      | .error e =>
          { response :=
              { status := 500
                body := [("success", .b false),
                         ("message", .s ("Failed to start stream: " ++ e)),
                         ("error_type", .s "unknown_error")] }
            calls := [], staged := true, fileAfter := false }
      | .ok _ =>
        match streamer_start_stream r true filepath title with
        | (t, .ok res) =>
            { response :=
                { status := 200
                  body := [("success", .b true),
                           ("message", .s "Stream started successfully"),
                           ("broadcast_url", .s res.broadcast_url)] }
              calls := t, staged := true, fileAfter := false }
        | (t, .error err) =>
            { response := error_response err
              calls := t, staged := true, fileAfter := false }

/-- A full `POST /start-stream` request as the app serves it: the
`check_session` before-request hook runs first and, because `start_stream` is
not in its exempt endpoint list, answers 401
`{authenticated: false, message: "Session expired"}` itself whenever the
session holds no credential; only otherwise does the view function run. -/
def start_stream_route (sess : Session) (req : StartRequest) (r : Remote) :
    CallOutcome :=
  match sess.youtube_credentials with
  | none =>
      { response :=
          { status := 401
            body := [("authenticated", .b false),
                     ("message", .s "Session expired")] }
        calls := [], staged := false, fileAfter := false }
  | some _ => start_stream_view req r

/-- Oracle for the external effects of `/auth/status`: building the service
from the stored credential, and the channels listing. -/
structure AuthRemote where
  getService : Except String Unit
  channelsList : Except String (List ChannelInfo)

/-- `YouTubeStreamer.get_channel_info`: list the channels; a non-empty item
list yields the first channel's info, an empty list yields `None`, and an
exception from the listing is re-raised. -/
def get_channel_info (ar : AuthRemote) : Except String (Option ChannelInfo) :=
  match ar.channelsList with
  | .error e => .error e
  | .ok [] => .ok none
  | .ok (c :: _) => .ok (some c)

/-- The `/auth/status` view function of `app.py`: no stored credential means
`authenticated: false`; a missing channel clears the credential and reports
`authenticated: false`; any exception also clears the credential and reports
`authenticated: false` with the error string.  Returns the response and the
session as it stands afterwards. -/
def auth_status_view (sess : Session) (ar : AuthRemote) : Response × Session :=
  match sess.youtube_credentials with
  | none =>
      ({ status := 200
         body := [("authenticated", .b false),
                  ("message", .s "Not authenticated")] }, sess)
  | some _ =>
    match ar.getService with
    | .error e =>
        ({ status := 200
           body := [("authenticated", .b false), ("error", .s e)] },
         { youtube_credentials := none })
    | .ok _ =>
      match get_channel_info ar with
      | .error e =>
          ({ status := 200
             body := [("authenticated", .b false), ("error", .s e)] },
           { youtube_credentials := none })
      | .ok none =>
          ({ status := 200
             body := [("authenticated", .b false),
                      ("message", .s "No channel found")] },
           { youtube_credentials := none })
      | .ok (some info) =>
          ({ status := 200
             body := [("authenticated", .b true),
                      ("channelInfo", .channel info)] }, sess)

/-- A full `GET /auth/status` request: `auth_status` is not in
`check_session`'s exempt list either, so a session without a credential is
answered 401 by the hook before the view runs. -/
def auth_status_route (sess : Session) (ar : AuthRemote) : Response × Session :=
  match sess.youtube_credentials with
  | none =>
      ({ status := 401
         body := [("authenticated", .b false),
                  ("message", .s "Session expired")] }, sess)
  | some _ => auth_status_view sess ar

/-- Is this call a `liveBroadcasts().delete` for the given broadcast id? -/
def isDeleteBroadcast (bid : String) : RemoteCall → Bool
  | .deleteBroadcast i => i == bid
  | _ => false

/-- Is this call a `liveStreams().delete` (for any stream id)? -/
def isDeleteStream : RemoteCall → Bool
  | .deleteStream _ => true
  | _ => false

/-- Environment in which every external effect succeeds: broadcast id `B1`,
stream id `S1`, one ingest address in the listing. -/
def remoteAllOk : Remote :=
  { buildService := .ok ()
    parseCredentials := .ok ()
    insertBroadcast := .ok "B1"
    transitionTesting := .ok ()
    transitionLive := .ok ()
    insertStream := .ok "S1"
    bind := .ok ()
    listStreams := .ok ["rtmp://a.rtmp.youtube.com/live2"]
    deleteBroadcast := .ok ()
    deleteStream := .ok ()
    spawnFfmpeg := .ok () }

/-- Environment in which only the broadcast-to-stream bind call fails. -/
def remoteBindFails : Remote := { remoteAllOk with bind := .error "bind failed" }

/-- Environment in which only the relay-process spawn fails. -/
def remoteSpawnFails : Remote :=
  { remoteAllOk with spawnFfmpeg := .error "spawn failed" }

/-- Session holding a stored credential. -/
def sessionDemo : Session := { youtube_credentials := some "credential-json" }

/-- Request uploading `video.mp4` with title `Demo`. -/
def requestDemo : StartRequest :=
  { hasVideoField := true, filename := "video.mp4", titleField := some "Demo" }

/-- Request uploading `video.mp4` whose `title` form field is present but
empty. -/
def requestEmptyTitle : StartRequest :=
  { hasVideoField := true, filename := "video.mp4", titleField := some "" }

/-- C5: a successful `create_broadcast` first inserts the broadcast row with
`privacyStatus = public`, `enableAutoStart = true`, `enableDvr = true`, then
issues exactly two lifecycle transition calls, `testing` then `live` in that
fixed order, and returns the created broadcast's id. -/
theorem create_broadcast_insert_then_testing_then_live (r : Remote)
    (title description bid : String)
    (hIns : r.insertBroadcast = .ok bid)
    (hTest : r.transitionTesting = .ok ())
    (hLive : r.transitionLive = .ok ()) :
    create_broadcast r title description =
      ([.insertBroadcast (broadcast_body title description),
        .transition "testing" bid, .transition "live" bid], .ok bid) ∧
    (broadcast_body title description).privacyStatus = "public" ∧
    (broadcast_body title description).enableAutoStart = true ∧
    (broadcast_body title description).enableDvr = true := by
  refine ⟨?_, rfl, rfl, rfl⟩
  unfold create_broadcast
  rw [hIns, hTest, hLive]

/-- Witness for C5 at a concrete environment. -/
theorem create_broadcast_insert_then_testing_then_live_witness :
    create_broadcast remoteAllOk "Demo" "Stream of video.mp4" =
      ([.insertBroadcast (broadcast_body "Demo" "Stream of video.mp4"),
        .transition "testing" "B1", .transition "live" "B1"], .ok "B1") :=
  (create_broadcast_insert_then_testing_then_live remoteAllOk
    "Demo" "Stream of video.mp4" "B1" rfl rfl rfl).1

/-- C2: when `create_stream` fails after `create_broadcast` succeeded, the
orchestrator invokes the broadcast delete exactly once, with the id returned
by the preceding `create_broadcast`, and the error raised to the caller is
`StreamError` wrapping the underlying cause (so in particular not
`BroadcastError`). -/
theorem stream_failure_deletes_broadcast_once (r : Remote)
    (path title bid e : String)
    (hBuild : r.buildService = .ok ())
    (hIns : r.insertBroadcast = .ok bid)
    (hTest : r.transitionTesting = .ok ())
    (hLive : r.transitionLive = .ok ())
    (hStream : r.insertStream = .error e) :
    (streamer_start_stream r true path title).1.countP
        (isDeleteBroadcast bid) = 1 ∧
    (streamer_start_stream r true path title).2 =
      .error (.streamError ("Failed to setup stream: " ++ e)) := by
  unfold streamer_start_stream create_broadcast setup_stream_block
    create_stream
  rw [hBuild, hIns, hTest, hLive, hStream]
  simp [isDeleteBroadcast]

/-- Witness for C2 at a concrete environment. -/
theorem stream_failure_deletes_broadcast_once_witness :
    (streamer_start_stream
        { remoteAllOk with insertStream := .error "quota" } true
        "temp_uploads/video.mp4" "Demo").1.countP
          (isDeleteBroadcast "B1") = 1 ∧
    (streamer_start_stream
        { remoteAllOk with insertStream := .error "quota" } true
        "temp_uploads/video.mp4" "Demo").2 =
      .error (.streamError ("Failed to setup stream: " ++ "quota")) :=
  stream_failure_deletes_broadcast_once _ "temp_uploads/video.mp4" "Demo"
    "B1" "quota" rfl rfl rfl rfl rfl

/-- C3 counterexample: with the bind call failing after broadcast `B1` and
stream `S1` were created, the orchestrator reaches the failure having issued
no `liveStreams().delete` call at all — the claimed rollback of the ingest
stream does not happen (only the broadcast delete is attempted). -/
theorem bind_failure_does_not_delete_stream_cex :
    (streamer_start_stream remoteBindFails true
        "temp_uploads/video.mp4" "Demo").2 =
      .error (.streamError "Failed to setup stream: bind failed") ∧
    (streamer_start_stream remoteBindFails true
        "temp_uploads/video.mp4" "Demo").1.countP isDeleteStream = 0 ∧
    (streamer_start_stream remoteBindFails true
        "temp_uploads/video.mp4" "Demo").1.countP
          (isDeleteBroadcast "B1") = 1 := ⟨rfl, rfl, rfl⟩

/-- C3 (amended): when the bind or the ingest-address lookup fails after the
stream was created, the orchestrator rolls back by deleting the broadcast
only — exactly one broadcast delete with the created broadcast's id, no
stream delete — and raises `StreamError`. -/
theorem bind_or_address_failure_deletes_only_broadcast (r : Remote)
    (path title bid sid e : String)
    (hBuild : r.buildService = .ok ())
    (hIns : r.insertBroadcast = .ok bid)
    (hTest : r.transitionTesting = .ok ())
    (hLive : r.transitionLive = .ok ())
    (hStream : r.insertStream = .ok sid)
    (hFail : r.bind = .error e ∨
      (r.bind = .ok () ∧ r.listStreams = .error e) ∨
      (r.bind = .ok () ∧ r.listStreams = .ok [] ∧
        e = "list index out of range")) :
    (streamer_start_stream r true path title).1.countP
        (isDeleteBroadcast bid) = 1 ∧
    (streamer_start_stream r true path title).1.countP isDeleteStream = 0 ∧
    (streamer_start_stream r true path title).2 =
      .error (.streamError ("Failed to setup stream: " ++ e)) := by
  rcases hFail with hb | ⟨hb, hl⟩ | ⟨hb, hl, he⟩ <;>
    [skip; skip; subst he] <;>
  · unfold streamer_start_stream create_broadcast setup_stream_block
      create_stream get_stream_url
    rw [hBuild, hIns, hTest, hLive, hStream, hb]
    try rw [hl]
    simp [isDeleteBroadcast, isDeleteStream]

/-- Witness for C3 (amended) at a concrete environment. -/
theorem bind_or_address_failure_deletes_only_broadcast_witness :
    (streamer_start_stream remoteBindFails true
        "temp_uploads/video.mp4" "Demo").1.countP
          (isDeleteBroadcast "B1") = 1 ∧
    (streamer_start_stream remoteBindFails true
        "temp_uploads/video.mp4" "Demo").1.countP isDeleteStream = 0 ∧
    (streamer_start_stream remoteBindFails true
        "temp_uploads/video.mp4" "Demo").2 =
      .error (.streamError ("Failed to setup stream: " ++ "bind failed")) :=
  bind_or_address_failure_deletes_only_broadcast remoteBindFails
    "temp_uploads/video.mp4" "Demo" "B1" "S1" "bind failed"
    rfl rfl rfl rfl rfl (Or.inl rfl)

/-- C1: with a stored credential, upload `video.mp4` titled `Demo`, and every
remote step succeeding (credential parse, service build, broadcast insert and
both transitions, stream insert, bind, ingest-address listing, relay spawn),
`POST /start-stream` answers 200 with `success: true` and
`broadcast_url = "https://youtube.com/watch?v=" ++ bid` for the created
broadcast id `bid`. -/
theorem start_stream_success_returns_watch_url (sess : Session)
    (cred : String) (r : Remote) (bid sid addr : String) (rest : List String)
    (hsess : sess.youtube_credentials = some cred)
    (hParse : r.parseCredentials = .ok ())
    (hBuild : r.buildService = .ok ())
    (hIns : r.insertBroadcast = .ok bid)
    (hTest : r.transitionTesting = .ok ())
    (hLive : r.transitionLive = .ok ())
    (hStream : r.insertStream = .ok sid)
    (hBind : r.bind = .ok ())
    (hList : r.listStreams = .ok (addr :: rest))
    (hSpawn : r.spawnFfmpeg = .ok ()) :
    (start_stream_route sess requestDemo r).response =
      { status := 200
        body := [("success", .b true),
                 ("message", .s "Stream started successfully"),
                 ("broadcast_url",
                  .s ("https://youtube.com/watch?v=" ++ bid))] } := by
  unfold start_stream_route
  rw [hsess]
  unfold start_stream_view streamer_start_stream create_broadcast
    setup_stream_block create_stream get_stream_url requestDemo
  rw [hParse, hBuild, hIns, hTest, hLive, hStream, hBind, hList, hSpawn]
  simp [show allowed_file "video.mp4" = true from rfl]

/-- Witness for C1 at a concrete environment. -/
theorem start_stream_success_returns_watch_url_witness :
    (start_stream_route sessionDemo requestDemo remoteAllOk).response =
      { status := 200
        body := [("success", .b true),
                 ("message", .s "Stream started successfully"),
                 ("broadcast_url",
                  .s ("https://youtube.com/watch?v=" ++ "B1"))] } :=
  start_stream_success_returns_watch_url sessionDemo "credential-json"
    remoteAllOk "B1" "S1" "rtmp://a.rtmp.youtube.com/live2" []
    rfl rfl rfl rfl rfl rfl rfl rfl rfl rfl

/-- C4: with a stored credential and a `video` part whose filename's
extension (the piece after the last dot, lowercased) is not an allowed
extension, `POST /start-stream` answers 400 with
`error_type = validation_error` and performs no remote call at all. -/
theorem disallowed_extension_rejected_before_any_remote_call (sess : Session)
    (cred : String) (req : StartRequest) (r : Remote)
    (hsess : sess.youtube_credentials = some cred)
    (hvid : req.hasVideoField = true)
    (hext : ALLOWED_EXTENSIONS.contains (lowerExt req.filename) = false) :
    (start_stream_route sess req r).response.status = 400 ∧
    List.lookup "error_type" (start_stream_route sess req r).response.body =
      some (.s "validation_error") ∧
    (start_stream_route sess req r).calls = [] := by
  have hall : allowed_file req.filename = false := by
    unfold allowed_file
    rw [hext]
    simp
  unfold start_stream_route
  rw [hsess]
  unfold start_stream_view
  rw [hvid]
  by_cases hf : req.filename = "" <;> simp [hf, hall, List.lookup]

/-- Witness for C4 at a concrete request uploading `clip.exe`. -/
theorem disallowed_extension_rejected_before_any_remote_call_witness :
    (start_stream_route sessionDemo
        { hasVideoField := true, filename := "clip.exe",
          titleField := some "Demo" } remoteAllOk).response.status = 400 ∧
    List.lookup "error_type"
      (start_stream_route sessionDemo
        { hasVideoField := true, filename := "clip.exe",
          titleField := some "Demo" } remoteAllOk).response.body =
      some (.s "validation_error") ∧
    (start_stream_route sessionDemo
        { hasVideoField := true, filename := "clip.exe",
          titleField := some "Demo" } remoteAllOk).calls = [] :=
  disallowed_extension_rejected_before_any_remote_call sessionDemo
    "credential-json" _ remoteAllOk rfl rfl (by decide)

/-- C6 counterexample: with no stored credential, `POST /start-stream` is
answered by the `check_session` hook: the status is 401 as claimed, but the
body is `{authenticated: false, message: "Session expired"}` and carries no
`error_type` field at all — in particular not `error_type = auth_error`. -/
theorem missing_credential_response_has_no_error_type_cex :
    (start_stream_route { youtube_credentials := none } requestDemo
        remoteAllOk).response.status = 401 ∧
    List.lookup "error_type"
      (start_stream_route { youtube_credentials := none } requestDemo
        remoteAllOk).response.body = none := ⟨rfl, rfl⟩

/-- C6 (amended): with no stored credential, `POST /start-stream` answers
401 with body `{authenticated: false, message: "Session expired"}` (no
`error_type` field), no remote call is made, and no file is staged: the
before-request session check intercepts the request, so the handler's own
`auth_error` branch is never reached. -/
theorem missing_credential_session_hook_returns_401 (req : StartRequest)
    (r : Remote) :
    start_stream_route { youtube_credentials := none } req r =
      { response :=
          { status := 401
            body := [("authenticated", .b false),
                     ("message", .s "Session expired")] }
        calls := [], staged := false, fileAfter := false } := rfl

/-- C7: on every terminal outcome of `POST /start-stream` in which the upload
was staged to disk, the staged file no longer exists when the call resolves
(the `finally` block removes it on every path out of the inner `try`). -/
theorem staged_upload_removed_on_resolution (sess : Session)
    (req : StartRequest) (r : Remote)
    (hstaged : (start_stream_route sess req r).staged = true) :
    (start_stream_route sess req r).fileAfter = false := by
  unfold start_stream_route start_stream_view
  dsimp only
  repeat' split
  all_goals rfl

/-- Witness for C7 at a concrete successful call. -/
theorem staged_upload_removed_on_resolution_witness :
    (start_stream_route sessionDemo requestDemo remoteAllOk).fileAfter =
      false :=
  staged_upload_removed_on_resolution sessionDemo requestDemo remoteAllOk rfl

/-- Helper: any 500 response among those the typed `except` clauses build
carries one of the handler's own error_type tags. -/
theorem error_response_500_tags (err : StreamErr)
    (h : (error_response err).status = 500) :
    List.lookup "error_type" (error_response err).body ∈
      [some (JVal.s "broadcast_error"), some (JVal.s "stream_error"),
       some (JVal.s "ffmpeg_error"), some (JVal.s "unknown_error")] := by
  cases err <;> simp_all [error_response, List.lookup]

/-- Helper: no response built from a `YouTubeStreamer` exception is a 400
(the typed `except` clauses answer 401 or 500). -/
theorem error_response_status_ne_400 (err : StreamErr) :
    (error_response err).status ≠ 400 := by
  cases err <;> simp [error_response]

/-- Helper: every 500 response of `POST /start-stream` carries one of the
error_type tags the handler actually emits. -/
theorem start_stream_500_error_type (sess : Session) (req : StartRequest)
    (r : Remote)
    (h : (start_stream_route sess req r).response.status = 500) :
    List.lookup "error_type" (start_stream_route sess req r).response.body ∈
      [some (JVal.s "broadcast_error"), some (JVal.s "stream_error"),
       some (JVal.s "ffmpeg_error"), some (JVal.s "unknown_error")] := by
  revert h
  unfold start_stream_route start_stream_view
  dsimp only
  repeat' split
  all_goals intro h
  all_goals
    first
      | exact error_response_500_tags _ h
      | simp_all [List.lookup]

/-- Helper: the trace of `create_broadcast` always begins with the broadcast
insert carrying the given title and description. -/
theorem create_broadcast_trace_head (r : Remote) (t d : String) :
    (create_broadcast r t d).1.head? =
      some (.insertBroadcast (broadcast_body t d)) := by
  unfold create_broadcast
  repeat' split
  all_goals rfl

/-- Helper: whenever the service build succeeds, the first remote call the
orchestrator makes is the broadcast insert, with the given title and the
description derived from the video path. -/
theorem streamer_first_call_is_insert (r : Remote) (p t : String)
    (hBuild : r.buildService = .ok ()) :
    (streamer_start_stream r true p t).1.head? =
      some (.insertBroadcast
        (broadcast_body t ("Stream of " ++ basename p))) := by
  have hcb := create_broadcast_trace_head r t ("Stream of " ++ basename p)
  unfold streamer_start_stream
  rw [hBuild]
  dsimp only
  rcases hc : create_broadcast r t ("Stream of " ++ basename p) with ⟨t1, res⟩
  rw [hc] at hcb
  rcases t1 with _ | ⟨a, t1rest⟩
  · simp at hcb
  · simp only [List.head?_cons, Option.some.injEq] at hcb
    cases res <;> dsimp only
    · simp [hcb]
    · repeat' split
      all_goals simp_all

/-- C8 counterexample: a relay-process start failure yields a 500 whose
`error_type` is `ffmpeg_error`, which is none of the five tags the claim
allows — in particular it is not `relay_error`. -/
theorem relay_failure_tag_not_in_claimed_set_cex :
    (start_stream_route sessionDemo requestDemo
        remoteSpawnFails).response.status = 500 ∧
    List.lookup "error_type"
      (start_stream_route sessionDemo requestDemo
        remoteSpawnFails).response.body = some (JVal.s "ffmpeg_error") ∧
    "ffmpeg_error" ∉
      ["auth_error", "broadcast_error", "stream_error", "relay_error",
       "unknown_error"] :=
  ⟨rfl, rfl, by decide⟩

/-- C8 (amended): every 500 response of `POST /start-stream` carries an
`error_type` drawn from {broadcast_error, stream_error, ffmpeg_error,
unknown_error}; in particular, a relay-process start failure yields status
500 with `error_type = ffmpeg_error` (while an `AuthenticationError` is
answered 401 with `auth_error`, not 500). -/
theorem server_error_tags_and_relay_failure_is_ffmpeg_error :
    (∀ sess req r, (start_stream_route sess req r).response.status = 500 →
      List.lookup "error_type"
          (start_stream_route sess req r).response.body ∈
        [some (JVal.s "broadcast_error"), some (JVal.s "stream_error"),
         some (JVal.s "ffmpeg_error"), some (JVal.s "unknown_error")]) ∧
    (∀ sess cred req r e bid sid addr rest,
      sess.youtube_credentials = some cred →
      req.hasVideoField = true →
      req.filename ≠ "" →
      allowed_file req.filename = true →
      r.parseCredentials = .ok () →
      r.buildService = .ok () →
      r.insertBroadcast = .ok bid →
      r.transitionTesting = .ok () →
      r.transitionLive = .ok () →
      r.insertStream = .ok sid →
      r.bind = .ok () →
      r.listStreams = .ok (addr :: rest) →
      r.spawnFfmpeg = .error e →
      (start_stream_route sess req r).response.status = 500 ∧
      List.lookup "error_type"
          (start_stream_route sess req r).response.body =
        some (JVal.s "ffmpeg_error")) := by
  refine ⟨fun sess req r h => start_stream_500_error_type sess req r h, ?_⟩
  intro sess cred req r e bid sid addr rest hsess hvid hne hall hParse hBuild
    hIns hTest hLive hStream hBind hList hSpawn
  unfold start_stream_route
  rw [hsess]
  unfold start_stream_view streamer_start_stream create_broadcast
    setup_stream_block create_stream get_stream_url
  rw [hParse, hBuild, hIns, hTest, hLive, hStream, hBind, hList, hSpawn]
  simp [hvid, hne, hall, error_response, List.lookup]

/-- Witness for C8 (amended, relay-failure part) at a concrete environment. -/
theorem server_error_tags_relay_failure_witness :
    (start_stream_route sessionDemo requestDemo
        remoteSpawnFails).response.status = 500 ∧
    List.lookup "error_type"
      (start_stream_route sessionDemo requestDemo
        remoteSpawnFails).response.body = some (JVal.s "ffmpeg_error") :=
  server_error_tags_and_relay_failure_is_ffmpeg_error.2 sessionDemo
    "credential-json" requestDemo remoteSpawnFails "spawn failed" "B1" "S1"
    "rtmp://a.rtmp.youtube.com/live2" [] rfl rfl (by decide) rfl rfl rfl rfl
    rfl rfl rfl rfl rfl rfl

/-- C9 counterexample: with the `title` form field present but empty, the
request is not rejected (the call succeeds), yet the broadcast is inserted
with the empty title rather than a non-empty default —
`request.form.get('title', 'Untitled Stream')` defaults only a missing
field. -/
theorem empty_title_not_defaulted_cex :
    (start_stream_route sessionDemo requestEmptyTitle
        remoteAllOk).response.status = 200 ∧
    (start_stream_route sessionDemo requestEmptyTitle remoteAllOk).calls.head? =
      some (.insertBroadcast (broadcast_body "" "Stream of video.mp4")) ∧
    "" ≠ "Untitled Stream" :=
  ⟨rfl, rfl, by decide⟩

/-- C9 (amended): the broadcast title used by `POST /start-stream` is
`request.form.get('title', 'Untitled Stream')`: a missing `title` field is
defaulted to `Untitled Stream`, while a present (even empty) field is passed
through unchanged; in neither case is the request rejected with a 400. -/
theorem title_defaulted_only_when_missing (sess : Session) (cred : String)
    (req : StartRequest) (r : Remote)
    (hsess : sess.youtube_credentials = some cred)
    (hvid : req.hasVideoField = true)
    (hne : req.filename ≠ "")
    (hall : allowed_file req.filename = true)
    (hParse : r.parseCredentials = .ok ())
    (hBuild : r.buildService = .ok ()) :
    (start_stream_route sess req r).calls.head? =
      some (.insertBroadcast
        (broadcast_body (req.titleField.getD "Untitled Stream")
          ("Stream of " ++ basename ("temp_uploads/" ++ req.filename)))) ∧
    (start_stream_route sess req r).response.status ≠ 400 := by
  unfold start_stream_route
  rw [hsess]
  unfold start_stream_view
  dsimp only
  rw [if_neg (by simp [hvid]), if_neg hne, if_neg (by simp [hall]), hParse]
  dsimp only
  rcases hrun : streamer_start_stream r true ("temp_uploads/" ++ req.filename)
      (req.titleField.getD "Untitled Stream") with ⟨t, res⟩
  have hhead := streamer_first_call_is_insert r
    ("temp_uploads/" ++ req.filename) (req.titleField.getD "Untitled Stream")
    hBuild
  rw [hrun] at hhead
  cases res <;> dsimp only <;>
    exact ⟨hhead, by first | exact error_response_status_ne_400 _ | decide⟩

/-- Witness for C9 (amended): with the `title` field absent, the broadcast is
inserted with the default title `Untitled Stream`. -/
theorem title_defaulted_only_when_missing_witness :
    (start_stream_route sessionDemo
        { hasVideoField := true, filename := "video.mp4", titleField := none }
        remoteAllOk).calls.head? =
      some (.insertBroadcast
        (broadcast_body ((none : Option String).getD "Untitled Stream")
          ("Stream of " ++ basename ("temp_uploads/" ++ "video.mp4")))) ∧
    (start_stream_route sessionDemo
        { hasVideoField := true, filename := "video.mp4", titleField := none }
        remoteAllOk).response.status ≠ 400 :=
  title_defaulted_only_when_missing sessionDemo "credential-json"
    { hasVideoField := true, filename := "video.mp4", titleField := none }
    remoteAllOk rfl rfl (by decide) rfl rfl rfl

/-- Oracle under which the `/auth/status` check raises. -/
def authRemoteFails : AuthRemote :=
  { getService := .error "boom", channelsList := .ok [] }

/-- C10: whenever the `/auth/status` check raises any exception (service
build or channels listing failing), the stored credential is removed from
the session and the response reports `authenticated: false`; moreover, after
any `/auth/status` response reporting `authenticated: false`, the session
holds no credential. -/
theorem auth_status_failure_clears_credential (sess : Session)
    (ar : AuthRemote) :
    (((∃ e, ar.getService = .error e) ∨ (∃ e, ar.channelsList = .error e)) →
      (auth_status_route sess ar).2.youtube_credentials = none ∧
      List.lookup "authenticated" (auth_status_route sess ar).1.body =
        some (.b false)) ∧
    (List.lookup "authenticated" (auth_status_route sess ar).1.body =
        some (.b false) →
      (auth_status_route sess ar).2.youtube_credentials = none) := by
  obtain ⟨creds⟩ := sess
  unfold auth_status_route auth_status_view get_channel_info
  rcases creds with _ | cred <;>
    rcases hg : ar.getService with eg | ⟨⟩ <;>
      rcases hc : ar.channelsList with ec | (_ | ⟨c, cs⟩) <;>
        simp_all [List.lookup]

/-- Witness for C10 at a concrete failing status check. -/
theorem auth_status_failure_clears_credential_witness :
    (auth_status_route sessionDemo authRemoteFails).2.youtube_credentials =
      none ∧
    List.lookup "authenticated"
      (auth_status_route sessionDemo authRemoteFails).1.body =
        some (.b false) :=
  (auth_status_failure_clears_credential sessionDemo authRemoteFails).1
    (Or.inl ⟨"boom", rfl⟩)

end YTStream
